import Mathlib

/-!
OpenGL-Test: input handling, debug toggle and frame driver.

A shallow embedding of `src/sources/debug.h` and `src/sources/main.cpp`.

* A `double` is its exact value, a rational.  The `float` variables `lastX`
  and `lastY` and the offsets computed from them are IEEE 754 binary32 values
  (`F32`): the casts `(float)xpos`, `(float)ypos` round, and the subtractions
  round and follow the rules for infinities and NaN.  The scroll offset and
  `deltaTime`, which are only handed on, are kept as rationals.
* The process-wide variables of `main.cpp`, the function-local statics of
  `processInput` and the state of the GLFW window (key table, close flag,
  cursor mode) are the fields of one record, `World`.
* Every call that leaves the translation unit (GLFW, OpenGL, the shader, model
  and camera classes, `std::cout`) is appended to `World.trace` in program
  order.  Matrices and camera reads handed to those calls are kept symbolic.
* `camera.h` is not part of the sources at hand; the program model records the
  calls made on the camera, and a separate model of the camera, written from
  the specification, gives those calls a meaning.
-/

namespace OpenGLTest

/-! ## Constants and symbolic values -/

/-- Value returned by `glfwGetKey`: `GLFW_RELEASE` or `GLFW_PRESS`. -/
inductive KeyState
  | RELEASE
  | PRESS
  deriving DecidableEq, Repr

/-- The keys queried by `processInput`. -/
inductive Key
  | KP_0
  | L
  | I
  | ESCAPE
  | W
  | S
  | A
  | D
  deriving DecidableEq, Repr

/-- Second argument of `glPolygonMode` as used by `Debug::process`. -/
inductive FillMode
  | GL_LINE
  | GL_FILL
  deriving DecidableEq, Repr

/-- Cursor modes passed to `glfwSetInputMode(window, GLFW_CURSOR, _)`. -/
inductive CursorMode
  | GLFW_CURSOR_NORMAL
  | GLFW_CURSOR_DISABLED
  deriving DecidableEq, Repr

/-- The enumeration `Camera_Movement` used by `processInput`. -/
inductive Camera_Movement
  | FORWARD
  | BACKWARD
  | LEFT
  | RIGHT
  deriving DecidableEq, Repr

/-- A `glm::vec3` with idealised components. -/
structure Vec3 where
  x : ℚ
  y : ℚ
  z : ℚ
  deriving DecidableEq, Repr

/-- The two shader programs of `main`. -/
inductive ShaderId
  | lightingShader
  | lampShader
  deriving DecidableEq, Repr

/-- The three models loaded by `main`. -/
inductive ModelId
  | block
  | ourModel
  | lamp
  deriving DecidableEq, Repr

/-- Symbolic `glm::mat4` expressions built in the frame loop. -/
inductive Mat4
  | identity
  | translate (m : Mat4) (v : Vec3)
  | scale (m : Mat4) (v : Vec3)
  | rotate (m : Mat4) (angleDegrees : ℚ) (axis : Vec3)
  | perspectiveOfCameraZoom (aspect : ℚ) (near : ℚ) (far : ℚ)
  | cameraViewMatrix
  deriving DecidableEq, Repr

/-- Values uploaded as shader uniforms. -/
inductive UVal
  | int (n : Int)
  | float (q : ℚ)
  | cosOfDegrees (q : ℚ)
  | boolAsFloat (b : Bool)
  | vec3 (v : Vec3)
  | cameraPosition
  | cameraFront
  | mat4 (m : Mat4)
  deriving DecidableEq, Repr

/-! ## The type float -/

/-- A C++ `float`, IEEE 754 binary32, the sign of zero left out: a finite
value, an infinity with its sign, or a NaN. -/
inductive F32
  | finite (value : ℚ)
  | inf (negative : Bool)
  | nan
  deriving DecidableEq, Repr

/-- Position of the leading binary digit of `n`, found in at most `fuel`
halvings. -/
def F32.log2Aux : Nat → Nat → Nat
  | 0, _ => 0
  | fuel + 1, n => if n < 2 then 0 else F32.log2Aux fuel (n / 2) + 1

/-- Position of the leading binary digit of `n`: the `e` with
`2 ^ e ≤ n < 2 ^ (e + 1)`, for positive `n`. -/
def F32.log2 (n : Nat) : Nat := F32.log2Aux n n

/-- The binary exponent of the positive fraction `n / d`: the `e` with
`2 ^ e ≤ n / d < 2 ^ (e + 1)`. -/
def F32.exponent (n d : Nat) : Int :=
  let e0 : Int := (F32.log2 n : Int) - (F32.log2 d : Int)
  if (if 0 ≤ e0 then d * 2 ^ e0.toNat ≤ n else d ≤ n * 2 ^ (-e0).toNat) then e0 else e0 - 1

/-- Rounding of an exact value to `float`: to the nearest value with a 24-bit
significand and an exponent of at least -126 (subnormal values included), a tie
going to the even significand, and to an infinity from `2 ^ 128` on. -/
def F32.round (q : ℚ) : F32 :=
  if q = 0 then F32.finite 0
  else
    let n := q.num.natAbs
    let d := q.den
    let e := F32.exponent n d
    let p := max e (-126) - 23
    let num := if 0 ≤ p then n else n * 2 ^ (-p).toNat
    let den := if 0 ≤ p then d * 2 ^ p.toNat else d
    let m := num / den
    let r := num % den
    let m := if den < 2 * r ∨ (2 * r = den ∧ m % 2 = 1) then m + 1 else m
    if 0 ≤ p ∧ 2 ^ 128 ≤ m * 2 ^ p.toNat then F32.inf (decide (q.num < 0))
    else
      let s : Int := if q.num < 0 then -(m : Int) else (m : Int)
      F32.finite (mkRat (s * 2 ^ p.toNat) (2 ^ (-p).toNat))

/-- The cast `(float)x` of a `double` with the exact value `x`. -/
def F32.ofDouble (x : ℚ) : F32 := F32.round x

/-- The subtraction `a - b` of two `float` values. -/
def F32.sub : F32 → F32 → F32
  | F32.nan, _ => F32.nan
  | _, F32.nan => F32.nan
  | F32.inf s, F32.inf t => if s = t then F32.nan else F32.inf s
  | F32.inf s, F32.finite _ => F32.inf s
  | F32.finite _, F32.inf t => F32.inf (!t)
  | F32.finite a, F32.finite b => F32.round (a - b)

/-- Calls made on the global `camera` object. -/
inductive CameraCall
  | ProcessKeyboard (direction : Camera_Movement) (deltaTime : ℚ)
  | ProcessMouseMovement (xoffset : F32) (yoffset : F32) (constrainPitch : Bool)
  | ProcessMouseScroll (yoffset : ℚ)
  deriving DecidableEq, Repr

/-- Calls that leave `main.cpp` and `debug.h`, in the form they are traced. -/
inductive Call
  | glfwInit
  | glfwWindowHint (hint : String) (value : String)
  | glfwCreateWindow (width : Nat) (height : Nat) (title : String)
  | cout (text : String)
  | glfwTerminate
  | glfwMakeContextCurrent
  | glfwSetFramebufferSizeCallback
  | glfwSetCursorPosCallback
  | glfwSetScrollCallback
  | glfwSetInputMode (mode : CursorMode)
  | gladLoadGLLoader
  | glGetIntegerv (what : String)
  | glEnable (what : String)
  | shaderCreate (s : ShaderId) (vertexPath : String) (fragmentPath : String)
  | modelCreate (m : ModelId) (path : String)
  | shaderUse (s : ShaderId)
  | setUniform (s : ShaderId) (name : String) (v : UVal)
  | glfwWindowShouldClose (result : Bool)
  | glfwGetTime
  | glfwSetWindowShouldClose (value : Bool)
  | camera (c : CameraCall)
  | glPolygonMode (mode : FillMode)
  | glClearColor (r : ℚ) (g : ℚ) (b : ℚ) (a : ℚ)
  | glClear
  | modelDraw (m : ModelId) (s : ShaderId)
  | glfwSwapBuffers
  | glfwPollEvents
  | glViewport (x : Int) (y : Int) (width : Int) (height : Int)
  deriving DecidableEq, Repr

/-! ## debug.h -/

/-- The class `Debug`: one flag, initially `false`. -/
structure Debug where
  polygonMode : Bool := false
  deriving DecidableEq, Repr

/-- The method `Debug::process`: returns the object after the call together with the
OpenGL calls it issued. -/
def Debug.process (d : Debug) : Debug × List Call :=
  if d.polygonMode then
    (d, [Call.glPolygonMode FillMode.GL_LINE])
  else
    (d, [Call.glPolygonMode FillMode.GL_FILL])

/-! ## State of the program -/

/-- Key table of the GLFW window, one entry per key the program reads. -/
structure Keys where
  KP_0 : KeyState := KeyState.RELEASE
  L : KeyState := KeyState.RELEASE
  I : KeyState := KeyState.RELEASE
  ESCAPE : KeyState := KeyState.RELEASE
  W : KeyState := KeyState.RELEASE
  S : KeyState := KeyState.RELEASE
  A : KeyState := KeyState.RELEASE
  D : KeyState := KeyState.RELEASE
  deriving DecidableEq, Repr

/-- Look a key up in the table. -/
def Keys.get (ks : Keys) : Key → KeyState
  | Key.KP_0 => ks.KP_0
  | Key.L => ks.L
  | Key.I => ks.I
  | Key.ESCAPE => ks.ESCAPE
  | Key.W => ks.W
  | Key.S => ks.S
  | Key.A => ks.A
  | Key.D => ks.D

/-- Store a key state in the table. -/
def Keys.set (ks : Keys) (k : Key) (s : KeyState) : Keys :=
  match k with
  | Key.KP_0 => { ks with KP_0 := s }
  | Key.L => { ks with L := s }
  | Key.I => { ks with I := s }
  | Key.ESCAPE => { ks with ESCAPE := s }
  | Key.W => { ks with W := s }
  | Key.S => { ks with S := s }
  | Key.A => { ks with A := s }
  | Key.D => { ks with D := s }

/-- The constant `SCR_WIDTH`. -/
def SCR_WIDTH : Nat := 1280

/-- The constant `SCR_HEIGHT`. -/
def SCR_HEIGHT : Nat := 720

/-- Window state, file-scope variables of `main.cpp`, the statics of
`processInput`, and the trace of outgoing calls. -/
structure World where
  keys : Keys := {}
  shouldClose : Bool := false
  cursorMode : CursorMode := CursorMode.GLFW_CURSOR_NORMAL
  debug : Debug := {}
  lastX : F32 := F32.finite ((SCR_WIDTH : ℚ) / 2)
  lastY : F32 := F32.finite ((SCR_HEIGHT : ℚ) / 2)
  firstMouse : Bool := true
  blocked : Bool := false
  spotLight : Bool := true
  deltaTime : ℚ := 0
  lastFrame : ℚ := 0
  polygonModeOld : KeyState := KeyState.RELEASE
  spotLightModeOld : KeyState := KeyState.RELEASE
  cursorModeOld : KeyState := KeyState.RELEASE
  trace : List Call := []
  deriving DecidableEq, Repr

/-- The state before `main` starts. -/
def World.initial : World := {}

/-- Record one outgoing call. -/
def World.emit (w : World) (c : Call) : World :=
  { w with trace := w.trace ++ [c] }

/-- The call `glfwGetKey(window, key)`, which reads the key table. -/
def glfwGetKey (w : World) (k : Key) : KeyState :=
  w.keys.get k

/-- The call `glfwSetInputMode(window, GLFW_CURSOR, mode)`. -/
def glfwSetInputMode (w : World) (m : CursorMode) : World :=
  { w with cursorMode := m, trace := w.trace ++ [Call.glfwSetInputMode m] }

/-- The call `glfwSetWindowShouldClose(window, value)`. -/
def glfwSetWindowShouldClose (w : World) (value : Bool) : World :=
  { w with shouldClose := value, trace := w.trace ++ [Call.glfwSetWindowShouldClose value] }

/-! ## main.cpp: input handling and callbacks -/

/-- The function `processInput` (main.cpp, lines 271-310). -/
def processInput (w : World) : World :=
  let polygonModeNew := glfwGetKey w Key.KP_0
  let w :=
    if polygonModeNew = KeyState.RELEASE ∧ w.polygonModeOld = KeyState.PRESS then
      { w with debug := { w.debug with polygonMode := !w.debug.polygonMode } }
    else w
  let w := { w with polygonModeOld := polygonModeNew }
  let spotLightModeNew := glfwGetKey w Key.L
  let w :=
    if spotLightModeNew = KeyState.RELEASE ∧ w.spotLightModeOld = KeyState.PRESS then
      { w with spotLight := !w.spotLight }
    else w
  let w := { w with spotLightModeOld := spotLightModeNew }
  let cursorModeNew := glfwGetKey w Key.I
  let w :=
    if cursorModeNew = KeyState.RELEASE ∧ w.cursorModeOld = KeyState.PRESS then
      { w with blocked := !w.blocked }
    else w
  let w := { w with cursorModeOld := cursorModeNew }
  let w :=
    if w.blocked then glfwSetInputMode w CursorMode.GLFW_CURSOR_NORMAL
    else glfwSetInputMode w CursorMode.GLFW_CURSOR_DISABLED
  let w :=
    if glfwGetKey w Key.ESCAPE = KeyState.PRESS then glfwSetWindowShouldClose w true else w
  let w :=
    if glfwGetKey w Key.W = KeyState.PRESS then
      w.emit (Call.camera (CameraCall.ProcessKeyboard Camera_Movement.FORWARD w.deltaTime))
    else w
  let w :=
    if glfwGetKey w Key.S = KeyState.PRESS then
      w.emit (Call.camera (CameraCall.ProcessKeyboard Camera_Movement.BACKWARD w.deltaTime))
    else w
  let w :=
    if glfwGetKey w Key.A = KeyState.PRESS then
      w.emit (Call.camera (CameraCall.ProcessKeyboard Camera_Movement.LEFT w.deltaTime))
    else w
  let w :=
    if glfwGetKey w Key.D = KeyState.PRESS then
      w.emit (Call.camera (CameraCall.ProcessKeyboard Camera_Movement.RIGHT w.deltaTime))
    else w
  w

/-- The function `framebuffer_size_callback` (main.cpp, lines 314-318). -/
def framebuffer_size_callback (w : World) (width height : Int) : World :=
  w.emit (Call.glViewport 0 0 width height)

/-- The function `mouse_callback` (main.cpp, lines 321-340).  The camera call
uses the default `constrainPitch = true`. -/
def mouse_callback (w : World) (xpos ypos : ℚ) : World :=
  if w.blocked then w
  else
    let w :=
      if w.firstMouse then
        { w with lastX := F32.ofDouble xpos, lastY := F32.ofDouble ypos, firstMouse := false }
      else w
    let xoffset := F32.sub (F32.ofDouble xpos) w.lastX
    let yoffset := F32.sub w.lastY (F32.ofDouble ypos)
    let w := { w with lastX := F32.ofDouble xpos, lastY := F32.ofDouble ypos }
    w.emit (Call.camera (CameraCall.ProcessMouseMovement xoffset yoffset true))

/-- The function `scroll_callback` (main.cpp, lines 343-345).  The offset is
handed on with its exact value. -/
def scroll_callback (w : World) (_xoffset yoffset : ℚ) : World :=
  w.emit (Call.camera (CameraCall.ProcessMouseScroll yoffset))

/-! ## main.cpp: the frame loop and main -/

/-- Events GLFW delivers to the window while `glfwPollEvents` runs. -/
inductive Event
  | key (k : Key) (s : KeyState)
  | cursorPos (xpos : ℚ) (ypos : ℚ)
  | scroll (xoffset : ℚ) (yoffset : ℚ)
  | framebufferSize (width : Int) (height : Int)
  | close
  deriving DecidableEq, Repr

/-- What the surroundings of the program decide: the build target, whether
window creation and GLAD loading succeed, the attribute count reported by the
driver, the clock read in each frame and the events polled in each frame. -/
structure Env where
  apple : Bool
  windowCreated : Bool
  gladLoaded : Bool
  nrAttributes : Int
  getTime : Nat → ℚ
  events : Nat → List Event

/-- Delivery of one event: key events update the key table, cursor, scroll and
resize events run the registered callbacks, a close request sets the flag. -/
def deliver (w : World) : Event → World
  | Event.key k s => { w with keys := w.keys.set k s }
  | Event.cursorPos x y => mouse_callback w x y
  | Event.scroll x y => scroll_callback w x y
  | Event.framebufferSize width height => framebuffer_size_callback w width height
  | Event.close => { w with shouldClose := true }

/-- The call `glfwPollEvents()` with the pending events `evs`. -/
def glfwPollEvents (w : World) (evs : List Event) : World :=
  evs.foldl deliver (w.emit Call.glfwPollEvents)

/-- The array `cubePositions` of `main`. -/
def cubePositions : List Vec3 :=
  [⟨0.0, 0.0, 0.0⟩, ⟨2.0, 5.0, -15.0⟩, ⟨-1.5, -2.2, -2.5⟩, ⟨-3.8, -2.0, -12.3⟩,
   ⟨2.4, -0.4, -3.5⟩, ⟨-1.7, 3.0, -7.5⟩, ⟨1.3, -2.0, -2.5⟩, ⟨1.5, 2.0, -2.5⟩,
   ⟨1.5, 0.2, -1.5⟩, ⟨-1.3, 1.0, -1.5⟩]

/-- The array `pointLightPositions` of `main`. -/
def pointLightPositions : List Vec3 :=
  [⟨0.7, 0.2, 2.0⟩, ⟨2.3, -3.3, -4.0⟩, ⟨-4.0, 2.0, -12.0⟩, ⟨0.0, 0.0, -3.0⟩]

/-- Element `i` of a position array. -/
def posAt (ps : List Vec3) (i : Nat) : Vec3 :=
  ps.getD i ⟨0, 0, 0⟩

/-- Clearing the frame and the uniform uploads of lines 133-202. -/
def lightingSetup (spotLight : Bool) : List Call :=
  let set := Call.setUniform ShaderId.lightingShader
  let v3 := fun (x y z : ℚ) => UVal.vec3 ⟨x, y, z⟩
  [ Call.glClearColor 0.05 0.05 0.05 1.0,
    Call.glClear,
    Call.shaderUse ShaderId.lightingShader,
    set "viewPos" UVal.cameraPosition,
    set "material.shininess" (UVal.float 32.0),
    set "projection"
      (UVal.mat4 (Mat4.perspectiveOfCameraZoom ((SCR_WIDTH : ℚ) / (SCR_HEIGHT : ℚ)) 0.1 100.0)),
    set "view" (UVal.mat4 Mat4.cameraViewMatrix),
    set "dirLight.direction" (v3 (-0.2) (-1.0) (-0.3)),
    set "dirLight.ambient" (v3 0.05 0.05 0.05),
    set "dirLight.diffuse" (v3 0.4 0.4 0.4),
    set "dirLight.specular" (v3 0.5 0.5 0.5),
    set "pointLights[0].position" (UVal.vec3 (posAt pointLightPositions 0)),
    set "pointLights[0].ambient" (v3 0.05 0.05 0.05),
    set "pointLights[0].diffuse" (v3 0.8 0.8 0.8),
    set "pointLights[0].specular" (v3 1.0 1.0 1.0),
    set "pointLights[0].constant" (UVal.float 1.0),
    set "pointLights[0].linear" (UVal.float 0.09),
    set "pointLights[0].quadratic" (UVal.float 0.032),
    set "pointLights[1].position" (UVal.vec3 (posAt pointLightPositions 1)),
    set "pointLights[1].ambient" (v3 0.05 0.05 0.05),
    set "pointLights[1].diffuse" (v3 0.8 0.8 0.8),
    set "pointLights[1].specular" (v3 1.0 1.0 1.0),
    set "pointLights[1].constant" (UVal.float 1.0),
    set "pointLights[1].linear" (UVal.float 0.09),
    set "pointLights[1].quadratic" (UVal.float 0.032),
    set "pointLights[2].position" (UVal.vec3 (posAt pointLightPositions 2)),
    set "pointLights[2].ambient" (v3 0.05 0.05 0.05),
    set "pointLights[2].diffuse" (v3 0.8 0.8 0.8),
    set "pointLights[2].specular" (v3 1.0 1.0 1.0),
    set "pointLights[2].constant" (UVal.float 1.0),
    set "pointLights[2].linear" (UVal.float 0.09),
    set "pointLights[2].quadratic" (UVal.float 0.032),
    set "pointLights[3].position" (UVal.vec3 (posAt pointLightPositions 3)),
    set "pointLights[3].ambient" (v3 0.05 0.05 0.05),
    set "pointLights[3].diffuse" (v3 0.8 0.8 0.8),
    set "pointLights[3].specular" (v3 1.0 1.0 1.0),
    set "pointLights[3].constant" (UVal.float 1.0),
    set "pointLights[3].linear" (UVal.float 0.09),
    set "pointLights[3].quadratic" (UVal.float 0.032),
    set "spotLight.position" UVal.cameraPosition,
    set "spotLight.direction" UVal.cameraFront,
    set "spotLight.ambient" (v3 0.0 0.0 0.0),
    set "spotLight.diffuse" (v3 1.0 1.0 1.0),
    set "spotLight.specular" (v3 1.0 1.0 1.0),
    set "spotLight.constant" (UVal.float 1.0),
    set "spotLight.linear" (UVal.float 0.09),
    set "spotLight.quadratic" (UVal.float 0.032),
    set "spotLight.cutOff" (UVal.cosOfDegrees 12.5),
    set "spotLight.outerCutOff" (UVal.cosOfDegrees 15.0),
    set "spotLight.enabled" (UVal.boolAsFloat spotLight) ]

/-- Body of the container loop (lines 205-222) for index `i`.  The call
`block.Draw(lightingShader)` is commented out in the source, so the body ends
with the upload of the model matrix. -/
def containerBody (i : Nat) : List Call :=
  let model := Mat4.identity
  let model := Mat4.translate model (posAt cubePositions i)
  let model := Mat4.scale model ⟨0.4, 0.4, 0.4⟩
  let angle : ℚ := 20.0 * (i : ℚ)
  let model := Mat4.rotate model angle ⟨1.0, 0.3, 0.5⟩
  [ Call.setUniform ShaderId.lightingShader "model" (UVal.mat4 model) ]

/-- Body of the lamp loop (lines 225-237) for index `i`. -/
def lampBody (i : Nat) : List Call :=
  let model := Mat4.identity
  let model := Mat4.translate model (posAt pointLightPositions i)
  let model := Mat4.scale model ⟨0.4, 0.4, 0.4⟩
  [ Call.shaderUse ShaderId.lampShader,
    Call.setUniform ShaderId.lampShader "projection"
      (UVal.mat4 (Mat4.perspectiveOfCameraZoom ((SCR_WIDTH : ℚ) / (SCR_HEIGHT : ℚ)) 0.1 100.0)),
    Call.setUniform ShaderId.lampShader "view" (UVal.mat4 Mat4.cameraViewMatrix),
    Call.setUniform ShaderId.lampShader "model" (UVal.mat4 model),
    Call.modelDraw ModelId.lamp ShaderId.lampShader ]

/-- The loop `for (unsigned int i = 0; i < 10; i++)` over the containers. -/
def renderContainers : List Call :=
  (List.range 10).foldl (fun acc i => acc ++ containerBody i) []

/-- The loop `for (unsigned int i = 0; i < 4; i++)` over the lamps. -/
def renderLamps : List Call :=
  (List.range 4).foldl (fun acc i => acc ++ lampBody i) []

/-- Rendering of the loaded scene model (lines 240-259). -/
def renderSceneModel : List Call :=
  let model := Mat4.identity
  let model := Mat4.translate model ⟨0.0, -1.75, -2.0⟩
  let model := Mat4.scale model ⟨0.01, 0.01, 0.01⟩
  let model := Mat4.rotate model (-90.0) ⟨1.0, 0.0, 0.0⟩
  [ Call.shaderUse ShaderId.lightingShader,
    Call.setUniform ShaderId.lightingShader "model" (UVal.mat4 model),
    Call.modelDraw ModelId.ourModel ShaderId.lightingShader ]

/-- Everything one loop iteration sends to the renderer between
`debug.process()` and `glfwSwapBuffers` (lines 133-259). -/
def renderCalls (spotLight : Bool) : List Call :=
  lightingSetup spotLight ++ renderContainers ++ renderLamps ++ renderSceneModel

/-- One iteration of the `while` loop of `main` (lines 121-262), as iteration
number `i`. -/
def frame (env : Env) (i : Nat) (w : World) : World :=
  let w := w.emit Call.glfwGetTime
  let currentFrame := env.getTime i
  let w := { w with deltaTime := currentFrame - w.lastFrame }
  let w := { w with lastFrame := currentFrame }
  let w := processInput w
  let r := w.debug.process
  let w := { w with debug := r.1, trace := w.trace ++ r.2 }
  let w := { w with trace := w.trace ++ renderCalls w.spotLight }
  let w := w.emit Call.glfwSwapBuffers
  glfwPollEvents w (env.events i)

/-- The loop `while (!glfwWindowShouldClose(window))`, started at iteration
`i`.  `none` means the fuel ran out while the loop was still running. -/
def mainLoop (env : Env) : Nat → Nat → World → Option World
  | fuel, i, w =>
    if w.shouldClose then
      some (w.emit (Call.glfwWindowShouldClose true))
    else
      match fuel with
      | 0 => none
      | n + 1 => mainLoop env n (i + 1) (frame env i (w.emit (Call.glfwWindowShouldClose false)))

/-- Lines 42-53 of `main`: initialisation of GLFW up to `glfwCreateWindow`. -/
def startWindow (env : Env) : World :=
  let w := World.initial
  let w := w.emit Call.glfwInit
  let w := w.emit (Call.glfwWindowHint "GLFW_CONTEXT_VERSION_MAJOR" "4")
  let w := w.emit (Call.glfwWindowHint "GLFW_CONTEXT_VERSION_MINOR" "1")
  let w := w.emit (Call.glfwWindowHint "GLFW_OPENGL_PROFILE" "GLFW_OPENGL_CORE_PROFILE")
  let w := w.emit (Call.glfwWindowHint "GLFW_RESIZABLE" "GL_FALSE")
  let w :=
    if env.apple then w.emit (Call.glfwWindowHint "GLFW_OPENGL_FORWARD_COMPAT" "GL_TRUE")
    else w
  w.emit (Call.glfwCreateWindow SCR_WIDTH SCR_HEIGHT "OpenGL")

/-- Lines 60-70 of `main`: context, callbacks, cursor capture, GLAD. -/
def startContext (w : World) : World :=
  let w := w.emit Call.glfwMakeContextCurrent
  let w := w.emit Call.glfwSetFramebufferSizeCallback
  let w := w.emit Call.glfwSetCursorPosCallback
  let w := w.emit Call.glfwSetScrollCallback
  let w := glfwSetInputMode w CursorMode.GLFW_CURSOR_DISABLED
  w.emit Call.gladLoadGLLoader

/-- Lines 75-117 of `main`: attribute report, depth test, shaders, models. -/
def startScene (env : Env) (w : World) : World :=
  let w := w.emit (Call.glGetIntegerv "GL_MAX_VERTEX_ATTRIBS")
  let w := w.emit
    (Call.cout ("Maximum nr of vertex attributes supported: " ++ toString env.nrAttributes))
  let w := w.emit (Call.glEnable "GL_DEPTH_TEST")
  let w := w.emit
    (Call.shaderCreate ShaderId.lightingShader "6.multiple_lights.vs" "6.multiple_lights.fs")
  let w := w.emit (Call.shaderCreate ShaderId.lampShader "6.lamp.vs" "6.lamp.fs")
  let w := w.emit (Call.modelCreate ModelId.block "resources/objects/block_spec/block_spec.obj")
  let w := w.emit (Call.modelCreate ModelId.ourModel "resources/objects/de_dust2/de_dust2.obj")
  let w := w.emit (Call.modelCreate ModelId.lamp "resources/objects/lamp/lamp.obj")
  let w := w.emit (Call.shaderUse ShaderId.lightingShader)
  let w := w.emit (Call.setUniform ShaderId.lightingShader "material.diffuse" (UVal.int 0))
  w.emit (Call.setUniform ShaderId.lightingShader "material.specular" (UVal.int 1))

/-- The function `main`: the value returned and the final state, or `none`
when `fuel` loop iterations were not enough to see the window close. -/
def main (env : Env) (fuel : Nat) : Option (Int × World) :=
  let w := startWindow env
  if env.windowCreated = false then
    let w := w.emit (Call.cout "Failed to create GLFW window")
    let w := w.emit Call.glfwTerminate
    some (-1, w)
  else
    let w := startContext w
    if env.gladLoaded = false then
      let w := w.emit (Call.cout "Failed to initialize GLAD")
      some (-1, w)
    else
      let w := startScene env w
      match mainLoop env fuel 0 w with
      | none => none
      | some w => some (0, w.emit Call.glfwTerminate)

/-- The state at the top of loop iteration `n`, had the loop run that far. -/
def worldAtTop (env : Env) (w : World) (i : Nat) : Nat → World
  | 0 => w
  | n + 1 => worldAtTop env (frame env i (w.emit (Call.glfwWindowShouldClose false))) (i + 1) n

/-! ## Proof devices for the program model -/

/-! The statements of `processInput` one by one; `processInput` is their
composition (`processInput_eq`). -/

/-- Lines 272-277 of `processInput`. -/
def polygonStep (w : World) : World :=
  let polygonModeNew := glfwGetKey w Key.KP_0
  let w :=
    if polygonModeNew = KeyState.RELEASE ∧ w.polygonModeOld = KeyState.PRESS then
      { w with debug := { w.debug with polygonMode := !w.debug.polygonMode } }
    else w
  { w with polygonModeOld := polygonModeNew }

/-- Lines 279-284 of `processInput`. -/
def spotLightStep (w : World) : World :=
  let spotLightModeNew := glfwGetKey w Key.L
  let w :=
    if spotLightModeNew = KeyState.RELEASE ∧ w.spotLightModeOld = KeyState.PRESS then
      { w with spotLight := !w.spotLight }
    else w
  { w with spotLightModeOld := spotLightModeNew }

/-- Lines 286-291 of `processInput`. -/
def cursorStep (w : World) : World :=
  let cursorModeNew := glfwGetKey w Key.I
  let w :=
    if cursorModeNew = KeyState.RELEASE ∧ w.cursorModeOld = KeyState.PRESS then
      { w with blocked := !w.blocked }
    else w
  { w with cursorModeOld := cursorModeNew }

/-- Lines 293-297 of `processInput`. -/
def cursorModeStep (w : World) : World :=
  if w.blocked then glfwSetInputMode w CursorMode.GLFW_CURSOR_NORMAL
  else glfwSetInputMode w CursorMode.GLFW_CURSOR_DISABLED

/-- Lines 299-300 of `processInput`. -/
def escapeStep (w : World) : World :=
  if glfwGetKey w Key.ESCAPE = KeyState.PRESS then glfwSetWindowShouldClose w true else w

/-- One of the four statements of lines 302-309 of `processInput`. -/
def moveStep (k : Key) (d : Camera_Movement) (w : World) : World :=
  if glfwGetKey w k = KeyState.PRESS then
    w.emit (Call.camera (CameraCall.ProcessKeyboard d w.deltaTime))
  else w

/-- The calls made on the camera, in order, among traced calls. -/
def cameraCalls : List Call → List CameraCall
  | [] => []
  | Call.camera c :: rest => c :: cameraCalls rest
  | _ :: rest => cameraCalls rest

/-- The models drawn, in order, among traced calls. -/
def drawsOf : List Call → List ModelId
  | [] => []
  | Call.modelDraw m _ :: rest => m :: drawsOf rest
  | _ :: rest => drawsOf rest

/-- The calls that concern one object instance: an upload of the uniform
`model`, or a draw. -/
def isObjectCall : Call → Bool
  | Call.setUniform _ name _ => name == "model"
  | Call.modelDraw _ _ => true
  | _ => false

/-- The calls made only inside the frame loop. -/
def isLoopCall : Call → Bool
  | Call.glfwWindowShouldClose _ => true
  | Call.glfwGetTime => true
  | Call.glPolygonMode _ => true
  | Call.glClearColor _ _ _ _ => true
  | Call.glClear => true
  | Call.modelDraw _ _ => true
  | Call.glfwSwapBuffers => true
  | Call.glfwPollEvents => true
  | _ => false

/-- The part of a loop iteration before `glfwPollEvents` (lines 121-261). -/
def frameBody (env : Env) (i : Nat) (w : World) : World :=
  let w := w.emit Call.glfwGetTime
  let currentFrame := env.getTime i
  let w := { w with deltaTime := currentFrame - w.lastFrame }
  let w := { w with lastFrame := currentFrame }
  let w := processInput w
  let r := w.debug.process
  let w := { w with debug := r.1, trace := w.trace ++ r.2 }
  let w := { w with trace := w.trace ++ renderCalls w.spotLight }
  w.emit Call.glfwSwapBuffers

/-- The uploads of the container loop: one model transform per container
position. -/
def containerUploads : List Call :=
  (List.range 10).map (fun i =>
    Call.setUniform ShaderId.lightingShader "model"
      (UVal.mat4
        (Mat4.rotate
          (Mat4.scale (Mat4.translate Mat4.identity (posAt cubePositions i)) ⟨0.4, 0.4, 0.4⟩)
          (20.0 * (i : ℚ)) ⟨1.0, 0.3, 0.5⟩)))

/-- The object calls of the lamp loop: per lamp position the upload of a model
transform, then the draw. -/
def lampObjectCalls : List Call :=
  ((List.range 4).map (fun i =>
    [ Call.setUniform ShaderId.lampShader "model"
        (UVal.mat4
          (Mat4.scale (Mat4.translate Mat4.identity (posAt pointLightPositions i))
            ⟨0.4, 0.4, 0.4⟩)),
      Call.modelDraw ModelId.lamp ShaderId.lampShader ])).flatten

/-- The object calls for the scene model: the upload of its model transform,
then the draw. -/
def sceneObjectCalls : List Call :=
  [ Call.setUniform ShaderId.lightingShader "model"
      (UVal.mat4
        (Mat4.rotate
          (Mat4.scale (Mat4.translate Mat4.identity ⟨0.0, -1.75, -2.0⟩) ⟨0.01, 0.01, 0.01⟩)
          (-90.0) ⟨1.0, 0.0, 0.0⟩)),
    Call.modelDraw ModelId.ourModel ShaderId.lightingShader ]

/-- The object calls of one frame. -/
def frameObjectCalls : List Call :=
  containerUploads ++ lampObjectCalls ++ sceneObjectCalls

/-- The mouse-movement calls made on the camera, in order, among traced
calls: the two offsets and the flag of each. -/
def mouseMoves : List Call → List (F32 × F32 × Bool)
  | [] => []
  | Call.camera (CameraCall.ProcessMouseMovement x y b) :: rest => (x, y, b) :: mouseMoves rest
  | _ :: rest => mouseMoves rest

/-- Running `processInput` once per frame, the key table of each frame being
the next element of the list. -/
def runFrames (w : World) : List Keys → World
  | [] => w
  | ks :: rest => runFrames (processInput { w with keys := ks }) rest

/-- Number of PRESS-then-RELEASE transitions in a sequence of samples of one
key, `prev` being the sample before the first. -/
def releaseEdges : KeyState → List KeyState → Nat
  | _, [] => 0
  | prev, s :: rest =>
    (if prev = KeyState.PRESS ∧ s = KeyState.RELEASE then 1 else 0) + releaseEdges s rest

/-- The sample remembered after a sequence of samples, `prev` being the one
remembered before. -/
def lastSample : KeyState → List KeyState → KeyState
  | prev, [] => prev
  | _, s :: rest => lastSample s rest

/-! ## The camera -/

/-- Sum of two vectors. -/
def Vec3.add (a b : Vec3) : Vec3 := ⟨a.x + b.x, a.y + b.y, a.z + b.z⟩

/-- Difference of two vectors. -/
def Vec3.sub (a b : Vec3) : Vec3 := ⟨a.x - b.x, a.y - b.y, a.z - b.z⟩

/-- A vector scaled by a number. -/
def Vec3.smul (k : ℚ) (a : Vec3) : Vec3 := ⟨k * a.x, k * a.y, k * a.z⟩

/-- Cross product. -/
def Vec3.cross (a b : Vec3) : Vec3 :=
  ⟨a.y * b.z - a.z * b.y, a.z * b.x - a.x * b.z, a.x * b.y - a.y * b.x⟩

/-- Modelled from the spec: the operations of the camera that the spec names
without giving them an exact rational form; `camera.h` is missing from the
sources.  They are the direction `(cos Yaw cos Pitch, sin Pitch, sin Yaw cos
Pitch)`, normalised, as a function of yaw and pitch in degrees; normalisation;
and the clamp of Pitch, which sections 3 and 4.1 describe as a clamp to the
open interval from -89 to 89 degrees without saying where a pitch outside the
interval is moved to: the clamp is a function whose result lies inside the
interval and which keeps a pitch that is inside already. -/
structure Numerics where
  front : ℚ → ℚ → Vec3
  normalize : Vec3 → Vec3
  clampPitch : ℚ → ℚ
  clampPitch_inside : ∀ p : ℚ, -89 < clampPitch p ∧ clampPitch p < 89
  clampPitch_keeps : ∀ p : ℚ, -89 < p → p < 89 → clampPitch p = p

/-- Modelled from the spec: the entity Camera of section 3; the class `Camera`
of `camera.h` is missing from the sources. -/
structure Camera where
  Position : Vec3
  Front : Vec3
  Up : Vec3
  Right : Vec3
  WorldUp : Vec3
  Yaw : ℚ
  Pitch : ℚ
  Zoom : ℚ
  MovementSpeed : ℚ
  MouseSensitivity : ℚ

/-- Modelled from the spec: the vector recomputation algorithm of section 4.1,
steps 1 to 3; `camera.h` is missing from the sources. -/
def Camera.updateCameraVectors (num : Numerics) (c : Camera) : Camera :=
  let front := num.front c.Yaw c.Pitch
  let right := num.normalize (Vec3.cross front c.WorldUp)
  let up := num.normalize (Vec3.cross right front)
  { c with Front := front, Right := right, Up := up }

/-- Modelled from the spec: `processKeyboard(direction, deltaTime)` of section
4.1, which moves Position by `MovementSpeed * deltaTime` along Front or Right,
BACKWARD and LEFT negating the vector; `camera.h` is missing from the
sources. -/
def Camera.processKeyboard (c : Camera) (direction : Camera_Movement) (deltaTime : ℚ) :
    Camera :=
  let velocity := c.MovementSpeed * deltaTime
  match direction with
  | Camera_Movement.FORWARD => { c with Position := c.Position.add (Vec3.smul velocity c.Front) }
  | Camera_Movement.BACKWARD => { c with Position := c.Position.sub (Vec3.smul velocity c.Front) }
  | Camera_Movement.LEFT => { c with Position := c.Position.sub (Vec3.smul velocity c.Right) }
  | Camera_Movement.RIGHT => { c with Position := c.Position.add (Vec3.smul velocity c.Right) }

/-- Modelled from the spec: `processMouseMovement(xoffset, yoffset,
constrainPitch)` of section 4.1, which scales the offsets by MouseSensitivity,
adds them to Yaw and Pitch, clamps Pitch to the open interval from -89 to 89
degrees when constrainPitch is set, and recomputes the vectors; `camera.h` is
missing from the sources. -/
def Camera.processMouseMovement (num : Numerics) (c : Camera) (xoffset yoffset : ℚ)
    (constrainPitch : Bool) : Camera :=
  let xoffset := xoffset * c.MouseSensitivity
  let yoffset := yoffset * c.MouseSensitivity
  let c := { c with Yaw := c.Yaw + xoffset, Pitch := c.Pitch + yoffset }
  let c := if constrainPitch then { c with Pitch := num.clampPitch c.Pitch } else c
  c.updateCameraVectors num

/-- Modelled from the spec: `processMouseScroll(yoffset)` of section 4.1, which
subtracts yoffset from Zoom and clamps to 1 and 45 degrees; `camera.h` is
missing from the sources.  Clamping replaces a value beyond a bound by that
bound. -/
def Camera.processMouseScroll (c : Camera) (yoffset : ℚ) : Camera :=
  let c := { c with Zoom := c.Zoom - yoffset }
  let c := if c.Zoom < 1 then { c with Zoom := 1 } else c
  if c.Zoom > 45 then { c with Zoom := 45 } else c

/-- The effect of one traced camera call on the camera.  The camera of the
specification works on numbers; a mouse movement with an offset that is not
finite has no meaning there and is passed over. -/
def Camera.apply (num : Numerics) (c : Camera) : CameraCall → Camera
  | CameraCall.ProcessKeyboard d dt => c.processKeyboard d dt
  | CameraCall.ProcessMouseMovement (F32.finite x) (F32.finite y) b =>
    c.processMouseMovement num x y b
  | CameraCall.ProcessMouseMovement _ _ _ => c
  | CameraCall.ProcessMouseScroll y => c.processMouseScroll y

/-- The effect of a sequence of traced camera calls on the camera. -/
def Camera.run (num : Numerics) (c : Camera) (calls : List CameraCall) : Camera :=
  calls.foldl (Camera.apply num) c

/-- Modelled from the spec: a camera at startup, with the position (0, 0, 5),
yaw -90, pitch 0, the orientation facing -Z and the movement speed 2.5 of
section 8; the zoom 45 and the sensitivity 1/10 are values the spec leaves
open.  `camera.h` is missing from the sources. -/
def Camera.startup : Camera :=
  { Position := ⟨0, 0, 5⟩, Front := ⟨0, 0, -1⟩, Up := ⟨0, 1, 0⟩, Right := ⟨1, 0, 0⟩,
    WorldUp := ⟨0, 1, 0⟩, Yaw := -90, Pitch := 0, Zoom := 45, MovementSpeed := 2.5,
    MouseSensitivity := 1 / 10 }

/-- A stand-in for the numeric operations, used where a statement is evaluated
on concrete data: it looks straight ahead, leaves vectors as they are, and
moves a pitch at or beyond a bound to a thousandth of a degree inside it. -/
def Numerics.still : Numerics :=
  { front := fun _ _ => ⟨0, 0, -1⟩
    normalize := fun v => v
    clampPitch := fun p =>
      if 89 ≤ p then 89 - 1 / 1000 else if p ≤ -89 then -89 + 1 / 1000 else p
    clampPitch_inside := by
      intro p
      by_cases h1 : 89 ≤ p
      · simp only [h1, if_true]
        norm_num
      · by_cases h2 : p ≤ -89
        · simp only [h1, h2, if_true, if_false]
          norm_num
        · simp only [h1, h2, if_false]
          exact ⟨not_le.mp h2, not_le.mp h1⟩
    clampPitch_keeps := by
      intro p h1 h2
      simp only [not_le.mpr h2, not_le.mpr h1, if_false] }

/-- An environment in which window creation fails. -/
def Env.noWindow : Env :=
  { apple := false, windowCreated := false, gladLoaded := true, nrAttributes := 16,
    getTime := fun i => (i : ℚ) / 60, events := fun _ => [] }

/-- An environment in which GLAD fails to load. -/
def Env.noGlad : Env :=
  { apple := false, windowCreated := true, gladLoaded := false, nrAttributes := 16,
    getTime := fun i => (i : ℚ) / 60, events := fun _ => [] }

/-- An environment in which start-up succeeds and the user closes the window
during the second frame. -/
def Env.closeInSecondFrame : Env :=
  { apple := false, windowCreated := true, gladLoaded := true, nrAttributes := 16,
    getTime := fun i => (i : ℚ) / 60,
    events := fun i => if i = 1 then [Event.close] else [] }

/-! ## Theorems -/

/-! ### The statements of processInput -/

theorem polygonStep_fields (w : World) :
    (polygonStep w).keys = w.keys ∧
    (polygonStep w).shouldClose = w.shouldClose ∧
    (polygonStep w).cursorMode = w.cursorMode ∧
    (polygonStep w).debug = { polygonMode := if w.keys.KP_0 = KeyState.RELEASE ∧ w.polygonModeOld = KeyState.PRESS then
        !w.debug.polygonMode else w.debug.polygonMode } ∧
    (polygonStep w).lastX = w.lastX ∧
    (polygonStep w).lastY = w.lastY ∧
    (polygonStep w).firstMouse = w.firstMouse ∧
    (polygonStep w).blocked = w.blocked ∧
    (polygonStep w).spotLight = w.spotLight ∧
    (polygonStep w).deltaTime = w.deltaTime ∧
    (polygonStep w).lastFrame = w.lastFrame ∧
    (polygonStep w).polygonModeOld = w.keys.KP_0 ∧
    (polygonStep w).spotLightModeOld = w.spotLightModeOld ∧
    (polygonStep w).cursorModeOld = w.cursorModeOld ∧
    (polygonStep w).trace = w.trace := by
  by_cases h : w.keys.KP_0 = KeyState.RELEASE ∧ w.polygonModeOld = KeyState.PRESS <;>
    simp [polygonStep, glfwGetKey, Keys.get, h]

theorem spotLightStep_fields (w : World) :
    (spotLightStep w).keys = w.keys ∧
    (spotLightStep w).shouldClose = w.shouldClose ∧
    (spotLightStep w).cursorMode = w.cursorMode ∧
    (spotLightStep w).debug = w.debug ∧
    (spotLightStep w).lastX = w.lastX ∧
    (spotLightStep w).lastY = w.lastY ∧
    (spotLightStep w).firstMouse = w.firstMouse ∧
    (spotLightStep w).blocked = w.blocked ∧
    (spotLightStep w).spotLight = (if w.keys.L = KeyState.RELEASE ∧ w.spotLightModeOld = KeyState.PRESS then
        !w.spotLight else w.spotLight) ∧
    (spotLightStep w).deltaTime = w.deltaTime ∧
    (spotLightStep w).lastFrame = w.lastFrame ∧
    (spotLightStep w).polygonModeOld = w.polygonModeOld ∧
    (spotLightStep w).spotLightModeOld = w.keys.L ∧
    (spotLightStep w).cursorModeOld = w.cursorModeOld ∧
    (spotLightStep w).trace = w.trace := by
  by_cases h : w.keys.L = KeyState.RELEASE ∧ w.spotLightModeOld = KeyState.PRESS <;>
    simp [spotLightStep, glfwGetKey, Keys.get, h]

theorem cursorStep_fields (w : World) :
    (cursorStep w).keys = w.keys ∧
    (cursorStep w).shouldClose = w.shouldClose ∧
    (cursorStep w).cursorMode = w.cursorMode ∧
    (cursorStep w).debug = w.debug ∧
    (cursorStep w).lastX = w.lastX ∧
    (cursorStep w).lastY = w.lastY ∧
    (cursorStep w).firstMouse = w.firstMouse ∧
    (cursorStep w).blocked = (if w.keys.I = KeyState.RELEASE ∧ w.cursorModeOld = KeyState.PRESS then
        !w.blocked else w.blocked) ∧
    (cursorStep w).spotLight = w.spotLight ∧
    (cursorStep w).deltaTime = w.deltaTime ∧
    (cursorStep w).lastFrame = w.lastFrame ∧
    (cursorStep w).polygonModeOld = w.polygonModeOld ∧
    (cursorStep w).spotLightModeOld = w.spotLightModeOld ∧
    (cursorStep w).cursorModeOld = w.keys.I ∧
    (cursorStep w).trace = w.trace := by
  by_cases h : w.keys.I = KeyState.RELEASE ∧ w.cursorModeOld = KeyState.PRESS <;>
    simp [cursorStep, glfwGetKey, Keys.get, h]

theorem cursorModeStep_fields (w : World) :
    (cursorModeStep w).keys = w.keys ∧
    (cursorModeStep w).shouldClose = w.shouldClose ∧
    (cursorModeStep w).cursorMode = (if w.blocked then CursorMode.GLFW_CURSOR_NORMAL
        else CursorMode.GLFW_CURSOR_DISABLED) ∧
    (cursorModeStep w).debug = w.debug ∧
    (cursorModeStep w).lastX = w.lastX ∧
    (cursorModeStep w).lastY = w.lastY ∧
    (cursorModeStep w).firstMouse = w.firstMouse ∧
    (cursorModeStep w).blocked = w.blocked ∧
    (cursorModeStep w).spotLight = w.spotLight ∧
    (cursorModeStep w).deltaTime = w.deltaTime ∧
    (cursorModeStep w).lastFrame = w.lastFrame ∧
    (cursorModeStep w).polygonModeOld = w.polygonModeOld ∧
    (cursorModeStep w).spotLightModeOld = w.spotLightModeOld ∧
    (cursorModeStep w).cursorModeOld = w.cursorModeOld ∧
    (cursorModeStep w).trace = w.trace ++ [Call.glfwSetInputMode (if w.blocked then CursorMode.GLFW_CURSOR_NORMAL
        else CursorMode.GLFW_CURSOR_DISABLED)] := by
  cases h : w.blocked <;> simp [cursorModeStep, glfwSetInputMode, h]

theorem escapeStep_fields (w : World) :
    (escapeStep w).keys = w.keys ∧
    (escapeStep w).shouldClose = (if w.keys.ESCAPE = KeyState.PRESS then true else w.shouldClose) ∧
    (escapeStep w).cursorMode = w.cursorMode ∧
    (escapeStep w).debug = w.debug ∧
    (escapeStep w).lastX = w.lastX ∧
    (escapeStep w).lastY = w.lastY ∧
    (escapeStep w).firstMouse = w.firstMouse ∧
    (escapeStep w).blocked = w.blocked ∧
    (escapeStep w).spotLight = w.spotLight ∧
    (escapeStep w).deltaTime = w.deltaTime ∧
    (escapeStep w).lastFrame = w.lastFrame ∧
    (escapeStep w).polygonModeOld = w.polygonModeOld ∧
    (escapeStep w).spotLightModeOld = w.spotLightModeOld ∧
    (escapeStep w).cursorModeOld = w.cursorModeOld ∧
    (escapeStep w).trace = w.trace ++ (if w.keys.ESCAPE = KeyState.PRESS then
        [Call.glfwSetWindowShouldClose true] else []) := by
  by_cases h : w.keys.ESCAPE = KeyState.PRESS <;>
    simp [escapeStep, glfwSetWindowShouldClose, glfwGetKey, Keys.get, h]

theorem moveStep_fields (k : Key) (d : Camera_Movement) (w : World) :
    (moveStep k d w).keys = w.keys ∧
    (moveStep k d w).shouldClose = w.shouldClose ∧
    (moveStep k d w).cursorMode = w.cursorMode ∧
    (moveStep k d w).debug = w.debug ∧
    (moveStep k d w).lastX = w.lastX ∧
    (moveStep k d w).lastY = w.lastY ∧
    (moveStep k d w).firstMouse = w.firstMouse ∧
    (moveStep k d w).blocked = w.blocked ∧
    (moveStep k d w).spotLight = w.spotLight ∧
    (moveStep k d w).deltaTime = w.deltaTime ∧
    (moveStep k d w).lastFrame = w.lastFrame ∧
    (moveStep k d w).polygonModeOld = w.polygonModeOld ∧
    (moveStep k d w).spotLightModeOld = w.spotLightModeOld ∧
    (moveStep k d w).cursorModeOld = w.cursorModeOld ∧
    (moveStep k d w).trace = w.trace ++ (if w.keys.get k = KeyState.PRESS then
        [Call.camera (CameraCall.ProcessKeyboard d w.deltaTime)] else []) := by
  by_cases h : w.keys.get k = KeyState.PRESS <;>
    simp [moveStep, World.emit, glfwGetKey, h]

theorem processInput_eq (w : World) :
    processInput w =
      moveStep Key.D Camera_Movement.RIGHT
        (moveStep Key.A Camera_Movement.LEFT
          (moveStep Key.S Camera_Movement.BACKWARD
            (moveStep Key.W Camera_Movement.FORWARD
              (escapeStep (cursorModeStep (cursorStep (spotLightStep (polygonStep w)))))))) :=
  rfl

theorem processInput_fields (w : World) :
    (processInput w).keys = w.keys ∧
    (processInput w).shouldClose =
      (if w.keys.ESCAPE = KeyState.PRESS then true else w.shouldClose) ∧
    (processInput w).debug.polygonMode =
      (if w.keys.KP_0 = KeyState.RELEASE ∧ w.polygonModeOld = KeyState.PRESS then
        !w.debug.polygonMode else w.debug.polygonMode) ∧
    (processInput w).lastX = w.lastX ∧ (processInput w).lastY = w.lastY ∧
    (processInput w).firstMouse = w.firstMouse ∧
    (processInput w).blocked =
      (if w.keys.I = KeyState.RELEASE ∧ w.cursorModeOld = KeyState.PRESS then
        !w.blocked else w.blocked) ∧
    (processInput w).spotLight =
      (if w.keys.L = KeyState.RELEASE ∧ w.spotLightModeOld = KeyState.PRESS then
        !w.spotLight else w.spotLight) ∧
    (processInput w).deltaTime = w.deltaTime ∧ (processInput w).lastFrame = w.lastFrame ∧
    (processInput w).polygonModeOld = w.keys.KP_0 ∧
    (processInput w).spotLightModeOld = w.keys.L ∧
    (processInput w).cursorModeOld = w.keys.I ∧
    (processInput w).cursorMode =
      (if (processInput w).blocked then CursorMode.GLFW_CURSOR_NORMAL
        else CursorMode.GLFW_CURSOR_DISABLED) ∧
    (processInput w).trace =
      w.trace ++
        [Call.glfwSetInputMode (if (processInput w).blocked then CursorMode.GLFW_CURSOR_NORMAL
          else CursorMode.GLFW_CURSOR_DISABLED)] ++
        (if w.keys.ESCAPE = KeyState.PRESS then [Call.glfwSetWindowShouldClose true] else []) ++
        (if w.keys.W = KeyState.PRESS then
          [Call.camera (CameraCall.ProcessKeyboard Camera_Movement.FORWARD w.deltaTime)]
          else []) ++
        (if w.keys.S = KeyState.PRESS then
          [Call.camera (CameraCall.ProcessKeyboard Camera_Movement.BACKWARD w.deltaTime)]
          else []) ++
        (if w.keys.A = KeyState.PRESS then
          [Call.camera (CameraCall.ProcessKeyboard Camera_Movement.LEFT w.deltaTime)]
          else []) ++
        (if w.keys.D = KeyState.PRESS then
          [Call.camera (CameraCall.ProcessKeyboard Camera_Movement.RIGHT w.deltaTime)]
          else []) := by
  simp only [processInput_eq, moveStep_fields, escapeStep_fields, cursorModeStep_fields,
    cursorStep_fields, spotLightStep_fields, polygonStep_fields, Keys.get, List.append_assoc,
    and_self]

/-! ### Traces of the callbacks -/

theorem cameraCalls_append (xs ys : List Call) :
    cameraCalls (xs ++ ys) = cameraCalls xs ++ cameraCalls ys := by
  induction xs with
  | nil => rfl
  | cons c rest ih => cases c <;> simp [cameraCalls, ih]

theorem runFrames_polygonModeOld (frames : List Keys) (w : World) :
    (runFrames w frames).polygonModeOld =
      lastSample w.polygonModeOld (frames.map Keys.KP_0) := by
  induction frames generalizing w with
  | nil => rfl
  | cons ks rest ih =>
    simp only [runFrames, List.map_cons, lastSample, ih, processInput_fields]

theorem runFrames_polygonMode (frames : List Keys) (w : World) :
    (runFrames w frames).debug.polygonMode =
      Nat.iterate not (releaseEdges w.polygonModeOld (frames.map Keys.KP_0))
        w.debug.polygonMode := by
  induction frames generalizing w with
  | nil => rfl
  | cons ks rest ih =>
    simp only [runFrames, List.map_cons, releaseEdges, ih, processInput_fields]
    by_cases h : ks.KP_0 = KeyState.RELEASE ∧ w.polygonModeOld = KeyState.PRESS
    · have h2 : w.polygonModeOld = KeyState.PRESS ∧ ks.KP_0 = KeyState.RELEASE := ⟨h.2, h.1⟩
      rw [if_pos h, if_pos h2, Nat.add_comm, Function.iterate_succ_apply]
    · have h2 : ¬ (w.polygonModeOld = KeyState.PRESS ∧ ks.KP_0 = KeyState.RELEASE) :=
        fun k => h ⟨k.2, k.1⟩
      rw [if_neg h, if_neg h2, Nat.zero_add]

/-! ### C1 -/

/-- C1: running processInput once per frame, the fill-mode toggle flips in a
frame exactly when that frame samples the fill-mode key as RELEASE and the
frame before sampled it as PRESS (the remembered sample starting as RELEASE),
and the final value of the toggle is the initial value negated once per
PRESS-then-RELEASE transition of the sample sequence. -/
theorem polygonMode_flips_once_per_release_edge (w : World) (frames : List Keys)
    (hw : w.polygonModeOld = KeyState.RELEASE) :
    (∀ (pre : List Keys) (ks : Keys) (post : List Keys), frames = pre ++ ks :: post →
      (processInput { runFrames w pre with keys := ks }).debug.polygonMode =
        (if ks.KP_0 = KeyState.RELEASE ∧
            lastSample KeyState.RELEASE (pre.map Keys.KP_0) = KeyState.PRESS then
          !(runFrames w pre).debug.polygonMode
        else (runFrames w pre).debug.polygonMode)) ∧
    (runFrames w frames).debug.polygonMode =
      Nat.iterate not (releaseEdges KeyState.RELEASE (frames.map Keys.KP_0))
        w.debug.polygonMode := by
  refine ⟨?_, ?_⟩
  · intro pre ks post _
    simp only [processInput_fields, runFrames_polygonModeOld, hw]
  · rw [runFrames_polygonMode, hw]

/-- Witness for C1: the key is pressed in the first frame, held in the second
and released in the third. -/
theorem polygonMode_flips_once_per_release_edge_witness :
    (runFrames World.initial
        [{ KP_0 := KeyState.PRESS }, { KP_0 := KeyState.PRESS },
          { KP_0 := KeyState.RELEASE }]).debug.polygonMode =
      Nat.iterate not
        (releaseEdges KeyState.RELEASE
          [KeyState.PRESS, KeyState.PRESS, KeyState.RELEASE])
        false :=
  (polygonMode_flips_once_per_release_edge World.initial
    [{ KP_0 := KeyState.PRESS }, { KP_0 := KeyState.PRESS }, { KP_0 := KeyState.RELEASE }]
    rfl).2

/-! ### C3 -/

/-- C3: one call of Debug.process issues exactly one fill-mode directive,
GL_LINE when polygonMode is true and GL_FILL when it is false, and leaves
polygonMode as it was; for the initial object the directive is GL_FILL. -/
theorem debug_process_directive (d : Debug) :
    d.process.2 =
        [Call.glPolygonMode (if d.polygonMode then FillMode.GL_LINE else FillMode.GL_FILL)] ∧
      d.process.1.polygonMode = d.polygonMode ∧
      (({} : Debug).polygonMode = false ∧
        ({} : Debug).process.2 = [Call.glPolygonMode FillMode.GL_FILL]) := by
  refine ⟨?_, ?_, rfl, rfl⟩
  · cases h : d.polygonMode <;> simp [Debug.process, h]
  · cases h : d.polygonMode <;> simp [Debug.process, h]

/-! ### C6 -/

/-- C6: one call of processInput calls the keyboard mutator of the camera with
the current deltaTime once per held movement key, in the order W (FORWARD),
S (BACKWARD), A (LEFT), D (RIGHT), and makes no other camera call; with none of
the four held it makes no camera call; with Escape held it requests the window
to close. -/
theorem processInput_movement_calls (w : World) :
    cameraCalls (processInput w).trace =
        cameraCalls w.trace ++
          (if w.keys.W = KeyState.PRESS then
            [CameraCall.ProcessKeyboard Camera_Movement.FORWARD w.deltaTime] else []) ++
          (if w.keys.S = KeyState.PRESS then
            [CameraCall.ProcessKeyboard Camera_Movement.BACKWARD w.deltaTime] else []) ++
          (if w.keys.A = KeyState.PRESS then
            [CameraCall.ProcessKeyboard Camera_Movement.LEFT w.deltaTime] else []) ++
          (if w.keys.D = KeyState.PRESS then
            [CameraCall.ProcessKeyboard Camera_Movement.RIGHT w.deltaTime] else []) ∧
      (w.keys.W ≠ KeyState.PRESS → w.keys.S ≠ KeyState.PRESS → w.keys.A ≠ KeyState.PRESS →
        w.keys.D ≠ KeyState.PRESS → cameraCalls (processInput w).trace = cameraCalls w.trace) ∧
      (w.keys.ESCAPE = KeyState.PRESS →
        (processInput w).shouldClose = true ∧
          Call.glfwSetWindowShouldClose true ∈ (processInput w).trace) ∧
      (w.keys.ESCAPE ≠ KeyState.PRESS → (processInput w).shouldClose = w.shouldClose) := by
  have key :
      cameraCalls (processInput w).trace =
        cameraCalls w.trace ++
          (if w.keys.W = KeyState.PRESS then
            [CameraCall.ProcessKeyboard Camera_Movement.FORWARD w.deltaTime] else []) ++
          (if w.keys.S = KeyState.PRESS then
            [CameraCall.ProcessKeyboard Camera_Movement.BACKWARD w.deltaTime] else []) ++
          (if w.keys.A = KeyState.PRESS then
            [CameraCall.ProcessKeyboard Camera_Movement.LEFT w.deltaTime] else []) ++
          (if w.keys.D = KeyState.PRESS then
            [CameraCall.ProcessKeyboard Camera_Movement.RIGHT w.deltaTime] else []) := by
    rw [(processInput_fields w).2.2.2.2.2.2.2.2.2.2.2.2.2.2]
    simp only [cameraCalls_append]
    congr 1
    · congr 1
      · congr 1
        · congr 1
          · have e1 : ∀ m, cameraCalls [Call.glfwSetInputMode m] = [] := fun _ => rfl
            have e2 :
                cameraCalls (if w.keys.ESCAPE = KeyState.PRESS then
                  [Call.glfwSetWindowShouldClose true] else []) = [] := by
              split_ifs <;> rfl
            rw [e1, e2, List.append_nil, List.append_nil]
          · split_ifs <;> rfl
        · split_ifs <;> rfl
      · split_ifs <;> rfl
    · split_ifs <;> rfl
  refine ⟨key, ?_, ?_, ?_⟩
  · intro hW hS hA hD
    rw [key, if_neg hW, if_neg hS, if_neg hA, if_neg hD]
    simp
  · intro hE
    refine ⟨?_, ?_⟩
    · rw [(processInput_fields w).2.1, if_pos hE]
    · rw [(processInput_fields w).2.2.2.2.2.2.2.2.2.2.2.2.2.2, if_pos hE]
      simp
  · intro hE
    rw [(processInput_fields w).2.1, if_neg hE]

/-- Witness for C6: W and D are held together with Escape. -/
theorem processInput_movement_calls_witness :
    (processInput
        { World.initial with
          keys := { W := KeyState.PRESS, D := KeyState.PRESS, ESCAPE := KeyState.PRESS },
          deltaTime := 1 / 60 }).shouldClose = true ∧
      Call.glfwSetWindowShouldClose true ∈
        (processInput
          { World.initial with
            keys := { W := KeyState.PRESS, D := KeyState.PRESS, ESCAPE := KeyState.PRESS },
            deltaTime := 1 / 60 }).trace :=
  (processInput_movement_calls
    { World.initial with
      keys := { W := KeyState.PRESS, D := KeyState.PRESS, ESCAPE := KeyState.PRESS },
      deltaTime := 1 / 60 }).2.2.1 rfl

/-! ### C7 -/

/-- C7: in one call of processInput each of the three flags changes exactly
when its own key shows a PRESS-then-RELEASE edge (the numeric key for
debug.polygonMode, L for spotLight, I for blocked), whatever the other keys and
flags are; each remembered key state becomes the sample of its own key; and
the one cursor mode requested by the call is NORMAL exactly when blocked is
true afterwards and DISABLED otherwise. -/
theorem processInput_toggles_independent (w : World) :
    ((processInput w).debug.polygonMode ≠ w.debug.polygonMode ↔
        (w.keys.KP_0 = KeyState.RELEASE ∧ w.polygonModeOld = KeyState.PRESS)) ∧
      ((processInput w).spotLight ≠ w.spotLight ↔
        (w.keys.L = KeyState.RELEASE ∧ w.spotLightModeOld = KeyState.PRESS)) ∧
      ((processInput w).blocked ≠ w.blocked ↔
        (w.keys.I = KeyState.RELEASE ∧ w.cursorModeOld = KeyState.PRESS)) ∧
      (processInput w).polygonModeOld = w.keys.KP_0 ∧
      (processInput w).spotLightModeOld = w.keys.L ∧
      (processInput w).cursorModeOld = w.keys.I ∧
      ((processInput w).cursorMode = CursorMode.GLFW_CURSOR_NORMAL ↔
        (processInput w).blocked = true) ∧
      ((processInput w).cursorMode = CursorMode.GLFW_CURSOR_DISABLED ↔
        (processInput w).blocked = false) ∧
      (∃ rest : List Call,
        (processInput w).trace =
            w.trace ++ Call.glfwSetInputMode (processInput w).cursorMode :: rest ∧
          ∀ m : CursorMode, Call.glfwSetInputMode m ∉ rest) := by
  have hf := processInput_fields w
  refine ⟨?_, ?_, ?_, hf.2.2.2.2.2.2.2.2.2.2.1, hf.2.2.2.2.2.2.2.2.2.2.2.1,
    hf.2.2.2.2.2.2.2.2.2.2.2.2.1, ?_, ?_, ?_⟩
  · rw [hf.2.2.1]
    by_cases h : w.keys.KP_0 = KeyState.RELEASE ∧ w.polygonModeOld = KeyState.PRESS
    · simp [h]
    · simp [h]
  · rw [hf.2.2.2.2.2.2.2.1]
    by_cases h : w.keys.L = KeyState.RELEASE ∧ w.spotLightModeOld = KeyState.PRESS
    · simp [h]
    · simp [h]
  · rw [hf.2.2.2.2.2.2.1]
    by_cases h : w.keys.I = KeyState.RELEASE ∧ w.cursorModeOld = KeyState.PRESS
    · simp [h]
    · simp [h]
  · rw [hf.2.2.2.2.2.2.2.2.2.2.2.2.2.1]
    cases (processInput w).blocked <;> simp
  · rw [hf.2.2.2.2.2.2.2.2.2.2.2.2.2.1]
    cases (processInput w).blocked <;> simp
  · refine ⟨(if w.keys.ESCAPE = KeyState.PRESS then [Call.glfwSetWindowShouldClose true]
        else []) ++
      (if w.keys.W = KeyState.PRESS then
        [Call.camera (CameraCall.ProcessKeyboard Camera_Movement.FORWARD w.deltaTime)]
        else []) ++
      (if w.keys.S = KeyState.PRESS then
        [Call.camera (CameraCall.ProcessKeyboard Camera_Movement.BACKWARD w.deltaTime)]
        else []) ++
      (if w.keys.A = KeyState.PRESS then
        [Call.camera (CameraCall.ProcessKeyboard Camera_Movement.LEFT w.deltaTime)]
        else []) ++
      (if w.keys.D = KeyState.PRESS then
        [Call.camera (CameraCall.ProcessKeyboard Camera_Movement.RIGHT w.deltaTime)]
        else []), ?_, ?_⟩
    · have ht := hf.2.2.2.2.2.2.2.2.2.2.2.2.2.2
      rw [← hf.2.2.2.2.2.2.2.2.2.2.2.2.2.1] at ht
      rw [ht]
      simp only [List.append_assoc, List.singleton_append, List.cons_append, List.nil_append]
    · intro m hm
      simp only [List.mem_append] at hm
      rcases hm with ((((hm | hm) | hm) | hm) | hm) <;>
        · split_ifs at hm <;> simp at hm

/-! ### C9 -/

/-! ### Values of float operations -/

theorem F32.round_zero : F32.round 0 = F32.finite 0 := by
  simp [F32.round]

theorem F32.ofDouble_zero : F32.ofDouble 0 = F32.finite 0 :=
  F32.round_zero

theorem F32.sub_self_finite (a : ℚ) : F32.sub (F32.finite a) (F32.finite a) = F32.finite 0 := by
  simp [F32.sub, F32.round_zero]

theorem F32.ofDouble_16777216 : F32.ofDouble 16777216 = F32.finite 16777216 := by
  decide

theorem F32.ofDouble_16777217 : F32.ofDouble 16777217 = F32.finite 16777216 := by
  decide

set_option maxRecDepth 100000 in
theorem F32.ofDouble_two_pow_130 :
    F32.ofDouble 1361129467683753853853498429727072845824 = F32.inf false := by
  decide

theorem F32.ofDouble_small :
    F32.ofDouble 10 = F32.finite 10 ∧ F32.ofDouble 20 = F32.finite 20 ∧
      F32.ofDouble 11 = F32.finite 11 ∧ F32.ofDouble 22 = F32.finite 22 ∧
      F32.ofDouble 100 = F32.finite 100 ∧ F32.ofDouble 200 = F32.finite 200 ∧
      F32.round 1 = F32.finite 1 ∧ F32.round (-2) = F32.finite (-2) := by
  decide

/-! ### C9 -/

theorem mouse_callback_locked_fields (w : World) (x y : ℚ) (hb : w.blocked = false) :
    (mouse_callback w x y).trace =
        w.trace ++
          [Call.camera
            (CameraCall.ProcessMouseMovement
              (F32.sub (F32.ofDouble x) (if w.firstMouse then F32.ofDouble x else w.lastX))
              (F32.sub (if w.firstMouse then F32.ofDouble y else w.lastY) (F32.ofDouble y))
              true)] ∧
      (mouse_callback w x y).lastX = F32.ofDouble x ∧
      (mouse_callback w x y).lastY = F32.ofDouble y ∧
      (mouse_callback w x y).firstMouse = false := by
  cases hf : w.firstMouse <;> simp [mouse_callback, World.emit, hb, hf]

/-- C9 as stated fails, in two ways.  After a first event at x = 16777216 an
event at x = 16777217 records 16777216, not 16777217, and passes the horizontal
offset 0, not 1, the cast to float rounding the position.  A first event at
x = 2 ^ 130, beyond the range of float, passes a NaN as horizontal offset, not
0. -/
theorem mouse_callback_rounds_position :
    ((mouse_callback (mouse_callback World.initial 16777216 0) 16777217 0).lastX =
          F32.finite 16777216 ∧
        (mouse_callback (mouse_callback World.initial 16777216 0) 16777217 0).lastX ≠
          F32.finite 16777217 ∧
        mouseMoves (mouse_callback (mouse_callback World.initial 16777216 0) 16777217 0).trace =
          [(F32.finite 0, F32.finite 0, true), (F32.finite 0, F32.finite 0, true)] ∧
        F32.finite 0 ≠ F32.finite (16777217 - 16777216)) ∧
      mouseMoves
          (mouse_callback World.initial 1361129467683753853853498429727072845824 0).trace =
        [(F32.nan, F32.finite 0, true)] ∧
      F32.nan ≠ F32.finite 0 := by
  have h1 := mouse_callback_locked_fields World.initial 16777216 0 rfl
  have hb1 : (mouse_callback World.initial 16777216 0).blocked = false := by
    simp [mouse_callback, World.initial, World.emit]
  have h2 := mouse_callback_locked_fields (mouse_callback World.initial 16777216 0) 16777217 0 hb1
  have h3 := mouse_callback_locked_fields World.initial
    1361129467683753853853498429727072845824 0 rfl
  refine ⟨⟨?_, ?_, ?_, ?_⟩, ?_, ?_⟩
  · rw [h2.2.1, F32.ofDouble_16777217]
  · rw [h2.2.1, F32.ofDouble_16777217]
    simp
  · rw [h2.1, h1.2.1, h1.2.2.1, h1.2.2.2, h1.1]
    simp [World.initial, mouseMoves, F32.ofDouble_16777216, F32.ofDouble_16777217,
      F32.ofDouble_zero, F32.sub_self_finite]
  · norm_num
  · rw [h3.1]
    simp [World.initial, mouseMoves, F32.ofDouble_two_pow_130, F32.ofDouble_zero,
      F32.sub_self_finite, F32.sub, F32.round_zero]
  · simp

/-- C9, amended: with the cursor locked (blocked false), mouse_callback at
(x, y) makes one camera call, with the offsets ((float)x - lastX,
lastY - (float)y) computed in float arithmetic against the recorded position,
then records ((float)x, (float)y) and clears firstMouse; when firstMouse is set
the recorded position is first replaced by ((float)x, (float)y), so the offsets
are (0, 0) whenever (float)x and (float)y are finite. -/
theorem mouse_callback_locked (w : World) (x y : ℚ) (hb : w.blocked = false) :
    (w.firstMouse = false →
        (mouse_callback w x y).trace =
          w.trace ++
            [Call.camera
              (CameraCall.ProcessMouseMovement (F32.sub (F32.ofDouble x) w.lastX)
                (F32.sub w.lastY (F32.ofDouble y)) true)]) ∧
      (w.firstMouse = true →
        (mouse_callback w x y).trace =
          w.trace ++
            [Call.camera
              (CameraCall.ProcessMouseMovement (F32.sub (F32.ofDouble x) (F32.ofDouble x))
                (F32.sub (F32.ofDouble y) (F32.ofDouble y)) true)]) ∧
      (w.firstMouse = true → ∀ a b : ℚ,
        F32.ofDouble x = F32.finite a → F32.ofDouble y = F32.finite b →
          (mouse_callback w x y).trace =
            w.trace ++
              [Call.camera
                (CameraCall.ProcessMouseMovement (F32.finite 0) (F32.finite 0) true)]) ∧
      (mouse_callback w x y).lastX = F32.ofDouble x ∧
      (mouse_callback w x y).lastY = F32.ofDouble y ∧
      (mouse_callback w x y).firstMouse = false := by
  have h := mouse_callback_locked_fields w x y hb
  refine ⟨fun hf => ?_, fun hf => ?_, fun hf a b ha hb2 => ?_, h.2⟩
  · rw [h.1, hf]; simp
  · rw [h.1, hf]; simp
  · rw [h.1, hf, ha, hb2]
    simp [F32.sub_self_finite]

/-- Witness for C9, amended: the first mouse event of a run, at (100, 200). -/
theorem mouse_callback_locked_witness :
    (mouse_callback World.initial 100 200).trace =
        World.initial.trace ++
          [Call.camera (CameraCall.ProcessMouseMovement (F32.finite 0) (F32.finite 0) true)] ∧
      (mouse_callback World.initial 100 200).lastX = F32.ofDouble 100 :=
  ⟨(mouse_callback_locked World.initial 100 200 rfl).2.2.1 rfl 100 200
      F32.ofDouble_small.2.2.2.2.1 F32.ofDouble_small.2.2.2.2.2.1,
    (mouse_callback_locked World.initial 100 200 rfl).2.2.2.1⟩

/-! ### C10 -/

theorem frame_eq (env : Env) (i : Nat) (w : World) :
    frame env i w = glfwPollEvents (frameBody env i w) (env.events i) :=
  rfl

theorem renderCalls_objectCalls (b : Bool) :
    (renderCalls b).filter isObjectCall = frameObjectCalls := by
  cases b <;> rfl

theorem processInput_ext (w : World) :
    ∃ xs, (processInput w).trace = w.trace ++ xs ∧ xs.filter isObjectCall = [] := by
  have h := (processInput_fields w).2.2.2.2.2.2.2.2.2.2.2.2.2.2
  simp only [List.append_assoc] at h
  refine ⟨_, h, ?_⟩
  simp only [List.filter_append]
  split_ifs <;> simp [isObjectCall]

theorem mouse_callback_ext (w : World) (x y : ℚ) :
    ∃ xs, (mouse_callback w x y).trace = w.trace ++ xs ∧ xs.filter isObjectCall = [] := by
  cases hb : w.blocked
  · exact ⟨_, (mouse_callback_locked_fields w x y hb).1, rfl⟩
  · exact ⟨[], by simp [mouse_callback, hb], rfl⟩

theorem deliver_ext (w : World) (e : Event) :
    ∃ xs, (deliver w e).trace = w.trace ++ xs ∧ xs.filter isObjectCall = [] := by
  cases e with
  | key k s => exact ⟨[], by simp [deliver], rfl⟩
  | cursorPos x y => exact mouse_callback_ext w x y
  | scroll x y => exact ⟨_, rfl, rfl⟩
  | framebufferSize a b => exact ⟨_, rfl, rfl⟩
  | close => exact ⟨[], by simp [deliver], rfl⟩

theorem deliverAll_ext (evs : List Event) (w : World) :
    ∃ xs, (evs.foldl deliver w).trace = w.trace ++ xs ∧ xs.filter isObjectCall = [] := by
  induction evs generalizing w with
  | nil => exact ⟨[], by simp, rfl⟩
  | cons e rest ih =>
    obtain ⟨xs, h1, h2⟩ := deliver_ext w e
    obtain ⟨ys, h3, h4⟩ := ih (deliver w e)
    refine ⟨xs ++ ys, ?_, ?_⟩
    · rw [List.foldl_cons, h3, h1, List.append_assoc]
    · rw [List.filter_append, h2, h4]; rfl

theorem frameBody_ext (env : Env) (i : Nat) (w : World) :
    ∃ xs, (frameBody env i w).trace = w.trace ++ xs ∧
      xs.filter isObjectCall = frameObjectCalls := by
  obtain ⟨xs, h1, h2⟩ := processInput_ext
    { w.emit Call.glfwGetTime with
      deltaTime := env.getTime i - (w.emit Call.glfwGetTime).lastFrame,
      lastFrame := env.getTime i }
  have h : (frameBody env i w).trace =
      w.trace ++ ([Call.glfwGetTime] ++ (xs ++
        ((processInput
            { w.emit Call.glfwGetTime with
              deltaTime := env.getTime i - (w.emit Call.glfwGetTime).lastFrame,
              lastFrame := env.getTime i }).debug.process.2 ++
          (renderCalls
              (processInput
                { w.emit Call.glfwGetTime with
                  deltaTime := env.getTime i - (w.emit Call.glfwGetTime).lastFrame,
                  lastFrame := env.getTime i }).spotLight ++
            [Call.glfwSwapBuffers])))) := by
    simp only [frameBody, World.emit, List.append_assoc] at h1 ⊢
    rw [h1]
    simp only [List.append_assoc]
  refine ⟨_, h, ?_⟩
  simp only [List.filter_append, h2, renderCalls_objectCalls]
  simp only [Debug.process]
  split_ifs <;> simp [isObjectCall]

theorem frame_ext (env : Env) (i : Nat) (w : World) :
    ∃ xs, (frame env i w).trace = w.trace ++ xs ∧
      xs.filter isObjectCall = frameObjectCalls := by
  obtain ⟨xs, h1, h2⟩ := frameBody_ext env i w
  obtain ⟨ys, h3, h4⟩ := deliverAll_ext (env.events i) ((frameBody env i w).emit Call.glfwPollEvents)
  refine ⟨xs ++ [Call.glfwPollEvents] ++ ys, ?_, ?_⟩
  · rw [frame_eq, glfwPollEvents, h3]
    simp only [World.emit, h1, List.append_assoc]
  · simp only [List.filter_append, h2, h4]
    simp [isObjectCall]

theorem drawsOf_filter (l : List Call) : drawsOf (l.filter isObjectCall) = drawsOf l := by
  induction l with
  | nil => rfl
  | cons c rest ih =>
    cases c <;> simp only [List.filter_cons, isObjectCall, drawsOf, ih] <;>
      first
        | rfl
        | (split_ifs <;> simp [drawsOf, ih])

theorem frame_objectCalls (env : Env) (i : Nat) (w : World) :
    ((frame env i w).trace.drop w.trace.length).filter isObjectCall = frameObjectCalls := by
  obtain ⟨xs, h1, h2⟩ := frame_ext env i w
  rw [h1, List.drop_left, h2]

theorem frame_draws (env : Env) (i : Nat) (w : World) :
    drawsOf ((frame env i w).trace.drop w.trace.length) =
      [ModelId.lamp, ModelId.lamp, ModelId.lamp, ModelId.lamp, ModelId.ourModel] := by
  rw [← drawsOf_filter, frame_objectCalls]
  rfl

/-! ### C8 -/

/-- C8 as stated fails: a frame issues five draw calls, not one for each of
the fifteen listed object instances, and the container model is never drawn. -/
theorem frame_draws_not_one_per_instance :
    (drawsOf ((frame Env.closeInSecondFrame 0 World.initial).trace.drop
        World.initial.trace.length)).length = 5 ∧
      (drawsOf ((frame Env.closeInSecondFrame 0 World.initial).trace.drop
        World.initial.trace.length)).length ≠ 10 + 4 + 1 ∧
      ModelId.block ∉
        drawsOf ((frame Env.closeInSecondFrame 0 World.initial).trace.drop
          World.initial.trace.length) := by
  rw [frame_draws]
  decide

/-- C8, amended: in every iteration of the frame loop a model transform is
computed and uploaded for each of the ten container positions, with no draw
call for a container; for each of the four lamp positions and for the scene
model a model transform is computed and uploaded and one draw call follows; so
one frame issues five draw calls. -/
theorem frame_uploads_and_draws (env : Env) (i : Nat) (w : World) :
    ((frame env i w).trace.drop w.trace.length).filter isObjectCall =
        containerUploads ++ lampObjectCalls ++ sceneObjectCalls ∧
      drawsOf ((frame env i w).trace.drop w.trace.length) =
        [ModelId.lamp, ModelId.lamp, ModelId.lamp, ModelId.lamp, ModelId.ourModel] ∧
      renderContainers.filter isObjectCall = containerUploads ∧
      containerUploads.length = 10 ∧ drawsOf renderContainers = [] ∧
      renderLamps.filter isObjectCall = lampObjectCalls ∧
      drawsOf renderLamps = [ModelId.lamp, ModelId.lamp, ModelId.lamp, ModelId.lamp] ∧
      renderSceneModel.filter isObjectCall = sceneObjectCalls ∧
      drawsOf renderSceneModel = [ModelId.ourModel] :=
  ⟨frame_objectCalls env i w, frame_draws env i w, rfl, rfl, rfl, rfl, rfl, rfl, rfl⟩

/-! ### The loop and main -/

theorem mainLoop_closed (env : Env) (fuel i : Nat) (w : World) (h : w.shouldClose = true) :
    mainLoop env fuel i w = some (w.emit (Call.glfwWindowShouldClose true)) := by
  cases fuel <;> simp [mainLoop, h]

theorem mainLoop_open (env : Env) (n i : Nat) (w : World) (h : w.shouldClose = false) :
    mainLoop env (n + 1) i w =
      mainLoop env n (i + 1) (frame env i (w.emit (Call.glfwWindowShouldClose false))) := by
  simp [mainLoop, h]

theorem mainLoop_open_zero (env : Env) (i : Nat) (w : World) (h : w.shouldClose = false) :
    mainLoop env 0 i w = none := by
  simp [mainLoop, h]

theorem mainLoop_result (env : Env) (fuel : Nat) :
    ∀ (i : Nat) (w w1 : World), mainLoop env fuel i w = some w1 →
      w1.shouldClose = true ∧ ∃ t, w1.trace = t ++ [Call.glfwWindowShouldClose true] := by
  induction fuel with
  | zero =>
    intro i w w1 h
    cases hc : w.shouldClose
    · rw [mainLoop_open_zero env i w hc] at h
      cases h
    · rw [mainLoop_closed env 0 i w hc] at h
      cases h
      exact ⟨hc, w.trace, rfl⟩
  | succ n ih =>
    intro i w w1 h
    cases hc : w.shouldClose
    · rw [mainLoop_open env n i w hc] at h
      exact ih _ _ _ h
    · rw [mainLoop_closed env (n + 1) i w hc] at h
      cases h
      exact ⟨hc, w.trace, rfl⟩

theorem mainLoop_terminates (env : Env) (n : Nat) :
    ∀ (i : Nat) (w : World), (worldAtTop env w i n).shouldClose = true →
      ∃ w1, mainLoop env n i w = some w1 := by
  induction n with
  | zero =>
    intro i w h
    exact ⟨_, mainLoop_closed env 0 i w h⟩
  | succ n ih =>
    intro i w h
    cases hc : w.shouldClose
    · rw [mainLoop_open env n i w hc]
      exact ih _ _ h
    · exact ⟨_, mainLoop_closed env (n + 1) i w hc⟩

theorem mainLoop_runs_on (env : Env) (fuel : Nat) :
    ∀ (i : Nat) (w : World), (∀ n, (worldAtTop env w i n).shouldClose = false) →
      mainLoop env fuel i w = none := by
  induction fuel with
  | zero =>
    intro i w h
    exact mainLoop_open_zero env i w (h 0)
  | succ n ih =>
    intro i w h
    rw [mainLoop_open env n i w (h 0)]
    exact ih _ _ (fun k => h (k + 1))

theorem startWindow_no_loop_call (env : Env) :
    ∀ c ∈ (startWindow env).trace, isLoopCall c = false := by
  cases ha : env.apple <;> simp [startWindow, World.initial, World.emit, ha, isLoopCall]

theorem startContext_no_loop_call (env : Env) :
    ∀ c ∈ (startContext (startWindow env)).trace, isLoopCall c = false := by
  cases ha : env.apple <;>
    simp [startContext, startWindow, World.initial, World.emit, glfwSetInputMode, ha, isLoopCall]

/-! ### C2 -/

/-- C2: main returns -1 exactly when window creation yields no window or GLAD
fails to load; in both cases a message is written to standard output and no
call of the frame loop is made; every other run that returns, returns 0, after
glfwWindowShouldClose has answered true at the top of the loop; such a run
returns as soon as the close flag is set at the top of an iteration, and does
not return while it is not. -/
theorem main_exit_status (env : Env) :
    (env.windowCreated = false → ∀ fuel, ∃ w,
        main env fuel = some (-1, w) ∧
          w.trace = (startWindow env).trace ++
            [Call.cout "Failed to create GLFW window", Call.glfwTerminate]) ∧
      (env.windowCreated = true → env.gladLoaded = false → ∀ fuel, ∃ w,
        main env fuel = some (-1, w) ∧
          w.trace = (startContext (startWindow env)).trace ++
            [Call.cout "Failed to initialize GLAD"]) ∧
      (∀ fuel w, main env fuel = some (-1, w) →
        (env.windowCreated = false ∨ env.gladLoaded = false) ∧
          (Call.cout "Failed to create GLFW window" ∈ w.trace ∨
            Call.cout "Failed to initialize GLAD" ∈ w.trace) ∧
          ∀ c ∈ w.trace, isLoopCall c = false) ∧
      (∀ fuel code w, main env fuel = some (code, w) →
        code = -1 ∨
          (code = 0 ∧ env.windowCreated = true ∧ env.gladLoaded = true ∧
            w.shouldClose = true ∧
            ∃ t, w.trace = t ++ [Call.glfwWindowShouldClose true, Call.glfwTerminate])) ∧
      (env.windowCreated = true → env.gladLoaded = true → ∀ n,
        (worldAtTop env (startScene env (startContext (startWindow env))) 0 n).shouldClose
            = true →
          ∃ w, main env n = some (0, w)) ∧
      (env.windowCreated = true → env.gladLoaded = true →
        (∀ n,
          (worldAtTop env (startScene env (startContext (startWindow env))) 0 n).shouldClose
            = false) →
          ∀ fuel, main env fuel = none) := by
  refine ⟨?_, ?_, ?_, ?_, ?_, ?_⟩
  · intro hw fuel
    exact ⟨((startWindow env).emit (Call.cout "Failed to create GLFW window")).emit
      Call.glfwTerminate, by simp [main, hw], by simp [World.emit]⟩
  · intro hw hg fuel
    exact ⟨(startContext (startWindow env)).emit (Call.cout "Failed to initialize GLAD"),
      by simp [main, hw, hg], by simp [World.emit]⟩
  · intro fuel w h
    cases hw : env.windowCreated
    · simp only [main, hw, if_true, Option.some.injEq, Prod.mk.injEq, true_and] at h
      subst h
      refine ⟨Or.inl rfl, Or.inl (by simp [World.emit]), ?_⟩
      intro c hc
      simp only [World.emit, List.append_assoc, List.mem_append, List.mem_singleton] at hc
      rcases hc with hc | hc | hc
      · exact startWindow_no_loop_call env c hc
      · subst hc; rfl
      · subst hc; rfl
    · cases hg : env.gladLoaded
      · simp only [main, hw, hg, if_true, Bool.true_eq_false, if_false, Option.some.injEq,
          Prod.mk.injEq, true_and] at h
        subst h
        refine ⟨Or.inr rfl, Or.inr (by simp [World.emit]), ?_⟩
        intro c hc
        simp only [World.emit, List.mem_append, List.mem_singleton] at hc
        rcases hc with hc | hc
        · exact startContext_no_loop_call env c hc
        · subst hc; rfl
      · simp only [main, hw, hg, Bool.true_eq_false, if_false] at h
        cases hl : mainLoop env fuel 0 (startScene env (startContext (startWindow env))) with
        | none => rw [hl] at h; cases h
        | some w1 => rw [hl] at h; simp at h
  · intro fuel code w h
    cases hw : env.windowCreated
    · simp only [main, hw, if_true, Option.some.injEq, Prod.mk.injEq] at h
      exact Or.inl h.1.symm
    · cases hg : env.gladLoaded
      · simp only [main, hw, hg, if_true, Bool.true_eq_false, if_false, Option.some.injEq,
          Prod.mk.injEq] at h
        exact Or.inl h.1.symm
      · simp only [main, hw, hg, Bool.true_eq_false, if_false] at h
        cases hl : mainLoop env fuel 0 (startScene env (startContext (startWindow env))) with
        | none => rw [hl] at h; cases h
        | some w1 =>
          rw [hl] at h
          simp only [Option.some.injEq, Prod.mk.injEq] at h
          obtain ⟨hc, t, ht⟩ := mainLoop_result env fuel 0 _ w1 hl
          refine Or.inr ⟨h.1.symm, rfl, rfl, ?_, t, ?_⟩
          · rw [← h.2]; exact hc
          · rw [← h.2]; simp [World.emit, ht]
  · intro hw hg n hn
    obtain ⟨w1, h1⟩ := mainLoop_terminates env n 0 _ hn
    exact ⟨w1.emit Call.glfwTerminate, by simp [main, hw, hg, h1]⟩
  · intro hw hg hn fuel
    have h1 := mainLoop_runs_on env fuel 0 _ hn
    simp [main, hw, hg, h1]

/-- Witness for C2: a run in which window creation fails, and a run in which
start-up succeeds and the window is closed during the second frame. -/
theorem main_exit_status_witness :
    (∀ fuel, ∃ w,
      main Env.noWindow fuel = some (-1, w) ∧
        w.trace = (startWindow Env.noWindow).trace ++
          [Call.cout "Failed to create GLFW window", Call.glfwTerminate]) ∧
      ∃ w, main Env.closeInSecondFrame 2 = some (0, w) :=
  ⟨(main_exit_status Env.noWindow).1 rfl,
    (main_exit_status Env.closeInSecondFrame).2.2.2.2.1 rfl rfl 2 rfl⟩

/-! ### The camera -/

theorem Camera.run_concat (num : Numerics) (c : Camera) (calls : List CameraCall)
    (call : CameraCall) :
    Camera.run num c (calls ++ [call]) = Camera.apply num (Camera.run num c calls) call := by
  simp [Camera.run, List.foldl_append]

theorem Camera.processMouseScroll_zoom (c : Camera) (yoffset : ℚ) :
    1 ≤ (c.processMouseScroll yoffset).Zoom ∧ (c.processMouseScroll yoffset).Zoom ≤ 45 := by
  unfold Camera.processMouseScroll
  by_cases h1 : c.Zoom - yoffset < 1
  · simp only [h1, if_true]
    norm_num
  · simp only [h1, if_false]
    by_cases h2 : c.Zoom - yoffset > 45
    · simp only [h2, if_true]
      norm_num
    · simp only [h2, if_false]
      exact ⟨not_lt.mp h1, not_lt.mp h2⟩

theorem take_eq_concat {α : Type} (l : List α) (k : Nat) (hk : 0 < k) (hk2 : k ≤ l.length) :
    ∃ (ini : List α) (x : α), l.take k = ini ++ [x] := by
  have hne : l.take k ≠ [] := by
    intro h
    have hlen := congrArg List.length h
    rw [List.length_take, Nat.min_eq_left hk2] at hlen
    exact absurd hlen (Nat.pos_iff_ne_zero.mp hk)
  rcases List.eq_nil_or_concat (l.take k) with h | ⟨ini, x, h⟩
  · exact absurd h hne
  · exact ⟨ini, x, by rw [h]; simp⟩

theorem scroll_callbacks_trace (scrolls : List (ℚ × ℚ)) (w : World) :
    (scrolls.foldl (fun v s => scroll_callback v s.1 s.2) w).trace =
      w.trace ++ scrolls.map (fun s => Call.camera (CameraCall.ProcessMouseScroll s.2)) := by
  induction scrolls generalizing w with
  | nil => simp
  | cons s rest ih =>
    rw [List.foldl_cons, ih]
    simp [scroll_callback, World.emit]

theorem cameraCalls_map_camera (calls : List CameraCall) :
    cameraCalls (calls.map Call.camera) = calls := by
  induction calls with
  | nil => rfl
  | cons c rest ih => simp [cameraCalls, ih]

/-! ### C4 -/

/-- C4: a sequence of scroll events makes scroll_callback call
processMouseScroll once per event with the yoffset of the event, and after
each of these calls, whatever camera they start from and whatever the offsets
are, Zoom lies between 1 and 45. -/
theorem scroll_zoom_within_bounds (num : Numerics) (c : Camera) (w : World)
    (scrolls : List (ℚ × ℚ)) (k : Nat) (hk : 0 < k) (hk2 : k ≤ scrolls.length) :
    cameraCalls
          (((scrolls.take k).foldl (fun v s => scroll_callback v s.1 s.2) w).trace.drop
            w.trace.length) =
        (scrolls.take k).map (fun s => CameraCall.ProcessMouseScroll s.2) ∧
      1 ≤ (Camera.run num c
            ((scrolls.take k).map (fun s => CameraCall.ProcessMouseScroll s.2))).Zoom ∧
      (Camera.run num c
            ((scrolls.take k).map (fun s => CameraCall.ProcessMouseScroll s.2))).Zoom ≤ 45 := by
  refine ⟨?_, ?_⟩
  · rw [scroll_callbacks_trace, List.drop_left]
    have h : (scrolls.take k).map (fun s => Call.camera (CameraCall.ProcessMouseScroll s.2)) =
        ((scrolls.take k).map (fun s => CameraCall.ProcessMouseScroll s.2)).map Call.camera := by
      rw [List.map_map]
      rfl
    rw [h, cameraCalls_map_camera]
  · obtain ⟨ini, x, hx⟩ := take_eq_concat scrolls k hk hk2
    rw [hx, List.map_append, List.map_singleton, Camera.run_concat]
    exact Camera.processMouseScroll_zoom _ _

/-- Witness for C4: three scroll events, the second of them far out of range,
looked at after the second. -/
theorem scroll_zoom_within_bounds_witness :
    1 ≤ (Camera.run Numerics.still Camera.startup
          (([((0 : ℚ), (3 : ℚ)), (0, -1000), (0, 7)].take 2).map
            (fun s => CameraCall.ProcessMouseScroll s.2))).Zoom ∧
      (Camera.run Numerics.still Camera.startup
          (([((0 : ℚ), (3 : ℚ)), (0, -1000), (0, 7)].take 2).map
            (fun s => CameraCall.ProcessMouseScroll s.2))).Zoom ≤ 45 :=
  (scroll_zoom_within_bounds Numerics.still Camera.startup World.initial
    [(0, 3), (0, -1000), (0, 7)] 2 (by decide) (by decide)).2

/-! ### C5 -/

end OpenGLTest
